import Mathlib

/-!
Shallow embedding of the authentication and session-management subsystem of
the bun-poc expense tracker (src/services/authService.ts and
src/services/cookieMiddleware.ts), together with proofs of the spec claims.

JavaScript strings are modelled as Lean `String` (or `List Char` where
character-level reasoning is needed); SQLite tables are modelled as lists of
row structures; the sqlite TEXT comparison used in `verifySession` is
byte-wise (BINARY collation) and is modelled as lexicographic comparison on
the character list.  Platform primitives that are not part of the repository
(`Bun.password`, `Bun.randomUUIDv7`, `Bun.CookieMap`, `Bun.Cookie`) are
modelled from the spec, as marked in their doc comments; their random inputs
(salt, uuid) and the clock are passed as explicit parameters.
-/

/-! ## Rows and store state (tables `users` and `sessions`) -/

/-- Row of the sqlite `users` table (`authService.ts`,
`initializeAuthDatabase`). -/
structure UserRow where
  id : Int
  username : String
  email : String
  password_hash : String
  created_at : String
deriving Repr, DecidableEq

/-- Row of the sqlite `sessions` table.  `expires_at` is TEXT, exactly as
stored (the result of `Date.toISOString()` at insert time). -/
structure SessionRow where
  user_id : Int
  session_token : String
  expires_at : String
deriving Repr, DecidableEq

/-- The auth database: the two tables, in insertion order. -/
structure AuthDb where
  users : List UserRow
  sessions : List SessionRow
deriving Repr, DecidableEq

/-! ## Password hasher

Modelled from the spec: `Bun.password.hashSync(password, {algorithm:
"bcrypt", cost: 4})` and `Bun.password.verifySync` are Bun builtins, not in
src/.  The model keeps the spec's contract: a hash string embeds the
algorithm/cost tag and the per-call random salt, the digest is determined by
(salt, password) and distinguishes distinct passwords of any length
(including the empty password, unicode, embedded nulls — `List Char` is
exact), and verification parses the hash back, throwing on a foreign format.
The salt is an explicit parameter standing for the fresh randomness of each
call; a real bcrypt salt is drawn from a base64 alphabet and never contains
the `'$'` separator, which is the `saltOk` hypothesis below. -/

/-- The bcrypt algorithm/cost tag at the head of every produced hash,
for cost 4. -/
def bcryptMagic : List Char := [Char.ofNat 36, '2', 'b', Char.ofNat 36, '0', '4', Char.ofNat 36]

/-- The `'$'` separator character of the modelled hash format. -/
def dollar : Char := Char.ofNat 36

/-- A salt as `Bun.password` draws it: it never contains the separator. -/
abbrev saltOk (salt : List Char) : Prop := dollar ∉ salt

/-- Modelled from the spec: `Bun.password.hashSync` with bcrypt cost 4 —
tag, then the fresh salt, then a digest determined by salt and password. -/
def bunHashSync (salt pw : List Char) : List Char :=
  bcryptMagic ++ salt ++ dollar :: pw

/-- Modelled from the spec: `Bun.password.verifySync`; throws (`Except.error`)
on a hash string not carrying the expected format tag, otherwise parses out
the digest stored after the salt and compares it against the digest of the
candidate password (in this model the digest function is the identity on the
password, which is all the spec's round-trip and mismatch properties need;
the salt still makes distinct calls produce distinct hash strings). -/
def bunVerifySync (pw h : List Char) : Except String Bool :=
  if h.take bcryptMagic.length = bcryptMagic then
    Except.ok ((((h.drop bcryptMagic.length).dropWhile (fun c => !(c == dollar))).drop 1) == pw)
  else
    Except.error "UnsupportedAlgorithm"

/-- Model of `hashPassword` from `authService.ts`: wraps the platform hasher; the
fresh salt of the underlying call is the explicit `salt` parameter. -/
def hashPassword (salt : List Char) (password : String) : String :=
  String.mk (bunHashSync salt password.data)

/-- Model of `verifyPassword` from `authService.ts`: wraps `verifySync` in
`try/catch`, mapping any thrown error to `false`. -/
def verifyPassword (password hash : String) : Bool :=
  match bunVerifySync password.data hash.data with
  | Except.ok b => b
  | Except.error _ => false

/-! ### Hasher lemmas -/

theorem takeWhile_salt (s d : List Char) (hs : dollar ∉ s) :
    (s ++ dollar :: d).takeWhile (fun c => !(c == dollar)) = s := by
  induction s with
  | nil => simp [List.takeWhile]
  | cons a as ih =>
    have ha : (a == dollar) = false := by
      simp only [beq_eq_false_iff_ne]
      exact fun h => hs (h ▸ List.mem_cons_self a as)
    have has : dollar ∉ as := fun h => hs (List.mem_cons_of_mem a h)
    simp [List.takeWhile, ha, ih has]

theorem dropWhile_salt (s d : List Char) (hs : dollar ∉ s) :
    (s ++ dollar :: d).dropWhile (fun c => !(c == dollar)) = dollar :: d := by
  induction s with
  | nil => simp [List.dropWhile]
  | cons a as ih =>
    have ha : (a == dollar) = false := by
      simp only [beq_eq_false_iff_ne]
      exact fun h => hs (h ▸ List.mem_cons_self a as)
    have has : dollar ∉ as := fun h => hs (List.mem_cons_of_mem a h)
    simp [List.dropWhile, ha, ih has]

/-- Verification of a hash produced by the model recovers exactly the
password comparison. -/
theorem verify_hash (salt : List Char) (hs : saltOk salt) (p q : String) :
    verifyPassword q (hashPassword salt p) = decide (p = q) := by
  unfold verifyPassword hashPassword bunVerifySync bunHashSync
  dsimp only
  rw [List.append_assoc, List.take_left, List.drop_left, dropWhile_salt _ _ hs]
  simp only [List.drop_one, List.tail_cons, if_pos]
  by_cases h : p = q
  · subst h; simp
  · have hd : p.data ≠ q.data :=
      fun hd => h (by cases p; cases q; exact congrArg String.mk hd)
    simp [h]
    exact fun hx => hd (by simpa using hx)

/-- A produced hash is strictly longer than the password, hence never equal
to it. -/
theorem hash_ne_password (salt : List Char) (p : String) :
    hashPassword salt p ≠ p := by
  intro h
  have hd : (bunHashSync salt p.data).length = p.data.length := by
    have := congrArg (fun s => s.data.length) h
    simpa [hashPassword] using this
  unfold bunHashSync at hd
  simp [bcryptMagic] at hd
  omega

/-- Distinct salts give distinct hashes of the same password. -/
theorem hash_salt_inj (s₁ s₂ : List Char) (h₁ : saltOk s₁) (h₂ : saltOk s₂)
    (p : String) (hne : s₁ ≠ s₂) :
    hashPassword s₁ p ≠ hashPassword s₂ p := by
  intro h
  apply hne
  have hd : bunHashSync s₁ p.data = bunHashSync s₂ p.data := by
    have := congrArg String.data h
    simpa [hashPassword] using this
  unfold bunHashSync at hd
  rw [List.append_assoc, List.append_assoc] at hd
  have hd' : s₁ ++ dollar :: p.data = s₂ ++ dollar :: p.data := by
    have h1 := congrArg (List.drop bcryptMagic.length) hd
    rwa [List.drop_left, List.drop_left] at h1
  have := congrArg (List.takeWhile (fun c => !(c == dollar))) hd'
  rwa [takeWhile_salt _ _ h₁, takeWhile_salt _ _ h₂] at this

/-! ## Session token generator

`generateSessionToken` (authService.ts) builds the ASCII string
`Bun.randomUUIDv7().split("-").join("") + Date.now().toString()` and returns
the lowercase hex encoding of its UTF-8 bytes
(`Buffer.from(...).toString("hex")`).  The uuid produced by the platform is
the explicit `uuid` parameter (modelled from the spec: `Bun.randomUUIDv7` is
a Bun builtin returning a fresh 36-character hyphenated uuid per call); the
clock reading is the `nowMs` parameter. -/

/-- Lowercase hex digit for a value below 16 (48 is `'0'`, 87 + 10 is `'a'`),
as `Buffer.toString("hex")` prints. -/
def hexDigit (n : Nat) : Char :=
  if n < 10 then Char.ofNat (48 + n) else Char.ofNat (87 + n)

/-- The hex charset of the produced tokens. -/
def hexChars : List Char := "0123456789abcdef".data

/-- One byte of the input string, as `Buffer.from` takes it (the inputs are
ASCII, so the byte is the code point). -/
def byteOf (c : Char) : Nat := c.toNat % 256

/-- Model of `Buffer.toString("hex")`: two hex digits per byte. -/
def bufferToHex (s : List Char) : List Char :=
  s.flatMap (fun c => [hexDigit (byteOf c / 16), hexDigit (byteOf c % 16)])

/-- Model of `uuid.split("-").join("")`: drop the hyphens. -/
def stripDashes (s : List Char) : List Char := s.filter (fun c => !(c == '-'))

/-- Model of `generateSessionToken` from `authService.ts`. -/
def generateSessionToken (uuid : List Char) (nowMs : Nat) : String :=
  String.mk (bufferToHex (stripDashes uuid ++ (Nat.repr nowMs).data))

/-! ### Token lemmas -/

theorem hexDigit_mem_hexChars (n : Nat) (h : n < 16) : hexDigit n ∈ hexChars := by
  have : ∀ i : Fin 16, hexDigit i.val ∈ hexChars := by decide
  exact this ⟨n, h⟩

theorem hexDigit_inj (a b : Nat) (ha : a < 16) (hb : b < 16)
    (h : hexDigit a = hexDigit b) : a = b := by
  have key : ∀ i j : Fin 16, hexDigit i.val = hexDigit j.val → i = j := by decide
  have := key ⟨a, ha⟩ ⟨b, hb⟩ h
  exact congrArg Fin.val this

theorem bufferToHex_length (s : List Char) :
    (bufferToHex s).length = 2 * s.length := by
  induction s with
  | nil => rfl
  | cons a as ih => simp [bufferToHex, List.flatMap_cons] at ih ⊢; omega

theorem bufferToHex_mem_hexChars (s : List Char) (c : Char)
    (hc : c ∈ bufferToHex s) : c ∈ hexChars := by
  induction s with
  | nil => simp [bufferToHex] at hc
  | cons a as ih =>
    simp only [bufferToHex, List.flatMap_cons, List.mem_append] at hc
    rcases hc with hc | hc
    · have hb : byteOf a < 256 := Nat.mod_lt _ (by norm_num)
      have h1 : byteOf a / 16 < 16 := by omega
      have h2 : byteOf a % 16 < 16 := Nat.mod_lt _ (by norm_num)
      simp only [List.mem_cons, List.mem_singleton] at hc
      rcases hc with rfl | rfl | h
      · exact hexDigit_mem_hexChars _ h1
      · exact hexDigit_mem_hexChars _ h2
      · exact absurd h (List.not_mem_nil c)
    · exact ih hc

theorem bufferToHex_bytes_inj (s t : List Char)
    (h : bufferToHex s = bufferToHex t) : s.map byteOf = t.map byteOf := by
  induction s generalizing t with
  | nil =>
    cases t with
    | nil => rfl
    | cons b bs => simp [bufferToHex, List.flatMap_cons] at h
  | cons a as ih =>
    cases t with
    | nil => simp [bufferToHex, List.flatMap_cons] at h
    | cons b bs =>
      simp only [bufferToHex, List.flatMap_cons, List.cons_append,
        List.nil_append, List.cons.injEq] at h
      obtain ⟨h1, h2, h3⟩ := h
      have hba : byteOf a < 256 := Nat.mod_lt _ (by norm_num)
      have hbb : byteOf b < 256 := Nat.mod_lt _ (by norm_num)
      have e1 : byteOf a / 16 = byteOf b / 16 :=
        hexDigit_inj _ _ (by omega) (by omega) h1
      have e2 : byteOf a % 16 = byteOf b % 16 :=
        hexDigit_inj _ _ (Nat.mod_lt _ (by norm_num)) (Nat.mod_lt _ (by norm_num)) h2
      have eb : byteOf a = byteOf b := by omega
      have := ih bs (by simpa [bufferToHex] using h3)
      simp [eb, this]

theorem map_byteOf_inj (s t : List Char)
    (hs : ∀ c ∈ s, c.toNat < 256) (ht : ∀ c ∈ t, c.toNat < 256)
    (h : s.map byteOf = t.map byteOf) : s = t := by
  induction s generalizing t with
  | nil => cases t with
    | nil => rfl
    | cons b bs => simp at h
  | cons a as ih =>
    cases t with
    | nil => simp at h
    | cons b bs =>
      simp only [List.map_cons, List.cons.injEq] at h
      obtain ⟨h1, h2⟩ := h
      have ha : a.toNat < 256 := hs a (List.mem_cons_self a as)
      have hb : b.toNat < 256 := ht b (List.mem_cons_self b bs)
      have hab : a.toNat = b.toNat := by
        unfold byteOf at h1
        rwa [Nat.mod_eq_of_lt ha, Nat.mod_eq_of_lt hb] at h1
      have : a = b := by
        have := congrArg Char.ofNat hab
        rwa [Char.ofNat_toNat, Char.ofNat_toNat] at this
      exact this ▸ congrArg (List.cons a)
        (ih bs (fun c hc => hs c (List.mem_cons_of_mem a hc))
            (fun c hc => ht c (List.mem_cons_of_mem b hc)) h2)

/-- Tokens generated from distinct uuids are distinct, provided the stripped
uuids are 32 ASCII characters as `randomUUIDv7` produces. -/
theorem generateSessionToken_inj (u₁ u₂ : List Char) (t₁ t₂ : Nat)
    (hl₁ : (stripDashes u₁).length = 32) (hl₂ : (stripDashes u₂).length = 32)
    (ha₁ : ∀ c ∈ stripDashes u₁, c.toNat < 256)
    (ha₂ : ∀ c ∈ stripDashes u₂, c.toNat < 256)
    (hne : stripDashes u₁ ≠ stripDashes u₂) :
    generateSessionToken u₁ t₁ ≠ generateSessionToken u₂ t₂ := by
  intro h
  apply hne
  have hdata : bufferToHex (stripDashes u₁ ++ (Nat.repr t₁).data) =
      bufferToHex (stripDashes u₂ ++ (Nat.repr t₂).data) := by
    have := congrArg String.data h
    simpa [generateSessionToken] using this
  have hbytes := bufferToHex_bytes_inj _ _ hdata
  rw [List.map_append, List.map_append] at hbytes
  have hlen : ((stripDashes u₁).map byteOf).length = ((stripDashes u₂).map byteOf).length := by
    simp [hl₁, hl₂]
  obtain ⟨hfront, _⟩ := List.append_inj hbytes hlen
  exact map_byteOf_inj _ _ ha₁ ha₂ hfront

/-! ## Time

`authenticateUser` stores `new Date(Date.now() + 7*24*60*60*1000)
.toISOString()` in `expires_at`; `verifySession` compares that TEXT column
against `datetime('now')` with sqlite's BINARY (byte-wise) TEXT ordering.
Both renderings are modelled exactly: the civil date is derived from the
epoch-millisecond clock with the standard days-from-civil inverse, and the
two distinct textual formats (`YYYY-MM-DDTHH:MM:SS.sssZ` versus
`YYYY-MM-DD HH:MM:SS`) are produced as the platform produces them. -/

/-- A UTC calendar timestamp. -/
structure DateTime where
  year : Nat
  month : Nat
  day : Nat
  hour : Nat
  minute : Nat
  second : Nat
  ms : Nat
deriving Repr, DecidableEq

def pad2 (n : Nat) : String :=
  if n < 10 then "0" ++ Nat.repr n else Nat.repr n

def pad3 (n : Nat) : String :=
  if n < 10 then "00" ++ Nat.repr n
  else if n < 100 then "0" ++ Nat.repr n
  else Nat.repr n

def pad4 (n : Nat) : String :=
  if n < 10 then "000" ++ Nat.repr n
  else if n < 100 then "00" ++ Nat.repr n
  else if n < 1000 then "0" ++ Nat.repr n
  else Nat.repr n

/-- Civil UTC date/time of an epoch-millisecond instant (proleptic Gregorian,
valid for all instants at or after the epoch). -/
def epochToDateTime (msSinceEpoch : Nat) : DateTime :=
  let days := msSinceEpoch / 86400000
  let rem := msSinceEpoch % 86400000
  let z := days + 719468
  let era := z / 146097
  let doe := z % 146097
  let yoe := (doe - doe / 1460 + doe / 36524 - doe / 146097) / 365
  let doy := doe - (365 * yoe + yoe / 4 - yoe / 100)
  let mp := (5 * doy + 2) / 153
  let d := doy - (153 * mp + 2) / 5 + 1
  let m := if mp < 10 then mp + 3 else mp - 9
  let y := yoe + era * 400 + (if m ≤ 2 then 1 else 0)
  ⟨y, m, d, rem / 3600000, rem % 3600000 / 60000, rem % 60000 / 1000, rem % 1000⟩

/-- Model of `Date.prototype.toISOString`: `YYYY-MM-DDTHH:MM:SS.sssZ` (UTC). -/
def toISOString (d : DateTime) : String :=
  pad4 d.year ++ "-" ++ pad2 d.month ++ "-" ++ pad2 d.day ++ "T" ++
    pad2 d.hour ++ ":" ++ pad2 d.minute ++ ":" ++ pad2 d.second ++ "." ++
    pad3 d.ms ++ "Z"

/-- sqlite `datetime('now')`: `YYYY-MM-DD HH:MM:SS` (UTC). -/
def sqliteDatetime (d : DateTime) : String :=
  pad4 d.year ++ "-" ++ pad2 d.month ++ "-" ++ pad2 d.day ++ " " ++
    pad2 d.hour ++ ":" ++ pad2 d.minute ++ ":" ++ pad2 d.second

example : toISOString (epochToDateTime 0) = "1970-01-01T00:00:00.000Z" := by decide
example : toISOString (epochToDateTime 1791680400000) = "2026-10-11T01:00:00.000Z" := by decide
example : sqliteDatetime (epochToDateTime 1791684000123) = "2026-10-11 02:00:00" := by decide

/-- Strict byte-wise text order, as sqlite's BINARY collation compares TEXT
values (all strings involved are ASCII, so character order is byte order). -/
def charListLt : List Char → List Char → Bool
  | _, [] => false
  | [], _ :: _ => true
  | a :: as, b :: bs => if a < b then true else if b < a then false else charListLt as bs

def sqlTextLt (a b : String) : Bool := charListLt a.data b.data

/-! ## Auth service operations (authService.ts) -/

/-- Result shape of `registerUser`; `userId = none` models an absent key. -/
structure RegisterResult where
  success : Bool
  message : String
  userId : Option Int
deriving Repr, DecidableEq

/-- Model of `registerUser` from `authService.ts`.  `nextId` is the id sqlite's
AUTOINCREMENT assigns to the inserted row, `salt` the fresh salt of the
inner `hashPassword` call, `nowStr` the CURRENT_TIMESTAMP default of
`created_at`. -/
def registerUser (db : AuthDb) (nextId : Int) (salt : List Char)
    (nowStr username email password : String) : RegisterResult × AuthDb :=
  if username == "" || email == "" || password == "" then
    (⟨false, "Username, email, and password are required", none⟩, db)
  else if password.length < 6 then
    (⟨false, "Password must be at least 6 characters long", none⟩, db)
  else
    match db.users.find? (fun u => u.email == email) with
    | some _ => (⟨false, "Email already registered", none⟩, db)
    | none =>
      let passwordHash := hashPassword salt password
      let db' : AuthDb :=
        { db with users := db.users ++ [⟨nextId, username, email, passwordHash, nowStr⟩] }
      let user := db'.users.find? (fun u => u.email == email)
      (⟨true, "User registered successfully", user.map (fun u => u.id)⟩, db')

/-- Result shape of `authenticateUser`; `none` models an absent key. -/
structure AuthResult where
  success : Bool
  message : String
  sessionToken : Option String
  userId : Option Int
deriving Repr, DecidableEq

/-- Model of `authenticateUser` from `authService.ts`.  `uuid` is the value the inner
`Bun.randomUUIDv7()` call returns, `nowMs` the `Date.now()` reading. -/
def authenticateUser (db : AuthDb) (uuid : List Char) (nowMs : Nat)
    (email password : String) : AuthResult × AuthDb :=
  match db.users.find? (fun u => u.email == email) with
  | none => (⟨false, "Invalid email or password", none, none⟩, db)
  | some user =>
    if verifyPassword password user.password_hash then
      let sessionToken := generateSessionToken uuid nowMs
      let expiresAt := toISOString (epochToDateTime (nowMs + 7 * 24 * 60 * 60 * 1000))
      (⟨true, "Authentication successful", some sessionToken, some user.id⟩,
        { db with sessions := db.sessions ++ [⟨user.id, sessionToken, expiresAt⟩] })
    else
      (⟨false, "Invalid email or password", none, none⟩, db)

/-- Result shape of `verifySession`; `userId = none` models an absent key. -/
structure VerifyResult where
  valid : Bool
  userId : Option Int
deriving Repr, DecidableEq

/-- Model of `verifySession` from `authService.ts`: one lookup with the condition
`session_token = ? AND expires_at > datetime('now')`, where `>` is sqlite's
byte-wise TEXT comparison. -/
def verifySession (db : AuthDb) (nowMs : Nat) (sessionToken : String) : VerifyResult :=
  match db.sessions.find? (fun s =>
      s.session_token == sessionToken &&
        sqlTextLt (sqliteDatetime (epochToDateTime nowMs)) s.expires_at) with
  | none => ⟨false, none⟩
  | some s => ⟨true, some s.user_id⟩

/-- Result shape of `getUserById`: the SELECTed columns only; the row's
`password_hash` column is not part of this shape. -/
structure UserInfo where
  id : Int
  username : String
  email : String
  created_at : String
deriving Repr, DecidableEq

/-- Model of `getUserById` from `authService.ts`. -/
def getUserById (db : AuthDb) (userId : Int) : Option UserInfo :=
  (db.users.find? (fun u => u.id == userId)).map
    (fun u => ⟨u.id, u.username, u.email, u.created_at⟩)

/-- Result shape of `logoutUser`. -/
structure LogoutResult where
  success : Bool
deriving Repr, DecidableEq

/-- Model of `logoutUser` from `authService.ts`: `DELETE FROM sessions WHERE
session_token = ?`. -/
def logoutUser (db : AuthDb) (sessionToken : String) : LogoutResult × AuthDb :=
  (⟨true⟩,
    { db with sessions := db.sessions.filter (fun s => !(s.session_token == sessionToken)) })

/-! ## Cookie transport (cookieMiddleware.ts)

HTTP messages are modelled structurally: a header list with the
case-insensitive name lookup of the `Headers` interface, plus status and
body for responses.  `Bun.CookieMap` (request-cookie parsing) and
`Bun.Cookie` (Set-Cookie serialization) are platform builtins, modelled from
the spec: semicolon-separated `name=value` pairs, tolerant of surrounding
whitespace, stray semicolons and attribute-like tokens, later duplicates
winning; and a serialization carrying the cookie's name, value and
attributes. -/

/-- An HTTP request: its header list. -/
structure Request where
  headers : List (String × String)
deriving Repr, DecidableEq

/-- An HTTP response: status, headers, body. -/
structure Response where
  status : Nat
  headers : List (String × String)
  body : String
deriving Repr, DecidableEq

/-- ASCII lowercasing, as JavaScript's `toLowerCase` acts on the ASCII
strings involved here (kept character-wise so that it evaluates). -/
def toLowerStr (s : String) : String := String.mk (s.data.map Char.toLower)

/-- Case-insensitive header-name comparison of the `Headers` interface. -/
def headerNameEq (a b : String) : Bool := toLowerStr a == toLowerStr b

/-- Model of `headers.get(name)`. -/
def headersGet (hs : List (String × String)) (name : String) : Option String :=
  (hs.find? (fun p => headerNameEq p.1 name)).map (fun p => p.2)

/-- Model of `headers.set(name, value)`: replaces any present entry. -/
def headersSet (hs : List (String × String)) (name value : String) :
    List (String × String) :=
  hs.filter (fun p => !(headerNameEq p.1 name)) ++ [(name, value)]

/-- Character-level split (the `String.splitOn` of the platform's cookie
parsing, kept structural so that it evaluates). -/
def splitOnChar (sep : Char) : List Char → List (List Char)
  | [] => [[]]
  | c :: cs =>
    if c == sep then [] :: splitOnChar sep cs
    else
      match splitOnChar sep cs with
      | [] => [[c]]
      | p :: ps => (c :: p) :: ps

/-- ASCII whitespace, as cookie-header parts are trimmed. -/
def isSpaceChar (c : Char) : Bool :=
  c == ' ' || c == '\t' || c == '\n' || c == '\r'

/-- Trim surrounding whitespace of a cookie-header part. -/
def trimChars (cs : List Char) : List Char :=
  ((cs.dropWhile isSpaceChar).reverse.dropWhile isSpaceChar).reverse

/-- Modelled from the spec: `Bun.CookieMap` parsing of a `Cookie` header —
split on `;`, trim each part, take the text before the first `=` as the name
and the rest as the value, skip parts without `=`. -/
def cookiePairs (hdr : String) : List (String × String) :=
  (splitOnChar ';' hdr.data).filterMap (fun part =>
    let cs := trimChars part
    let name := cs.takeWhile (fun c => !(c == '='))
    match cs.dropWhile (fun c => !(c == '=')) with
    | [] => none
    | _ :: value => some (String.mk name, String.mk value))

/-- Modelled from the spec: `cookieMap.get(name)`, later duplicates winning. -/
def cookieMapGet (hdr name : String) : Option String :=
  (((cookiePairs hdr).filter (fun p => p.1 == name)).getLast?).map (fun p => p.2)

/-- Model of `getSessionFromCookies` from `cookieMiddleware.ts`; the final
`if` models the `|| null` coercion of an empty cookie value. -/
def getSessionFromCookies (req : Request) : Option String :=
  match headersGet req.headers "cookie" with
  | none => none
  | some hdr =>
    match cookieMapGet hdr "sessionToken" with
    | none => none
    | some v => if v == "" then none else some v

/-- Model of `Bun.Cookie`'s constructor arguments, as
`setSessionCookie`/`clearSessionCookie` fill them. -/
structure BunCookie where
  name : String
  value : String
  path : String
  httpOnly : Bool
  secure : Bool
  sameSite : String
  maxAge : Nat
deriving Repr, DecidableEq

/-- Modelled from the spec: `Bun.Cookie.toString()` — `name=value` followed
by the attribute list. -/
def cookieToString (c : BunCookie) : String :=
  c.name ++ "=" ++ c.value ++ "; Path=" ++ c.path ++
    "; Max-Age=" ++ Nat.repr c.maxAge ++
    (if c.secure then "; Secure" else "") ++
    (if c.httpOnly then "; HttpOnly" else "") ++
    "; SameSite=" ++ c.sameSite

/-- Model of `setSessionCookie` from `cookieMiddleware.ts`: copy the
response (`new Response(response.body, response)`), then set `Set-Cookie`. -/
def setSessionCookie (response : Response) (sessionToken : String)
    (expiryDays : Nat) : Response :=
  let cookie : BunCookie :=
    ⟨"sessionToken", sessionToken, "/", true, true, "strict", expiryDays * 24 * 60 * 60⟩
  { response with
      headers := headersSet response.headers "Set-Cookie" (cookieToString cookie) }

/-- Model of `clearSessionCookie` from `cookieMiddleware.ts`. -/
def clearSessionCookie (response : Response) : Response :=
  let cookie : BunCookie := ⟨"sessionToken", "", "/", true, true, "strict", 0⟩
  { response with
      headers := headersSet response.headers "Set-Cookie" (cookieToString cookie) }

/-- Model of `withOptionalAuthentication` from `cookieMiddleware.ts`: the
(userId, userInfo) pair the wrapper hands to the inner handler.  The guard
`!sessionResult.valid || !sessionResult.userId` is modelled including the
JavaScript falsiness of the number 0. -/
def resolveAuth (db : AuthDb) (nowMs : Nat) (req : Request) :
    Option Int × Option UserInfo :=
  match getSessionFromCookies req with
  | none => (none, none)
  | some sessionToken =>
    let sr := verifySession db nowMs sessionToken
    if !sr.valid then (none, none)
    else
      match sr.userId with
      | none => (none, none)
      | some uid =>
        if uid == 0 then (none, none) else (some uid, getUserById db uid)

/-! ## Claim theorems -/

/-- Claim C4: for every password `p`, `hash(p) ≠ p` and `verify(p, hash(p))
= true`; two separate `hash(p)` calls (whose fresh platform salts are the
two `saltOk` parameters, distinct per the fresh-salt contract) produce two
different hash strings, and `verify(p, ·) = true` holds for both. -/
theorem hashPassword_roundtrip_fresh_salt (p : String) (s₁ s₂ : List Char)
    (h₁ : saltOk s₁) (h₂ : saltOk s₂) (hne : s₁ ≠ s₂) :
    hashPassword s₁ p ≠ p ∧
    verifyPassword p (hashPassword s₁ p) = true ∧
    hashPassword s₁ p ≠ hashPassword s₂ p ∧
    verifyPassword p (hashPassword s₂ p) = true := by
  refine ⟨hash_ne_password s₁ p, ?_, hash_salt_inj s₁ s₂ h₁ h₂ p hne, ?_⟩
  · rw [verify_hash s₁ h₁]; simp
  · rw [verify_hash s₂ h₂]; simp

theorem hashPassword_roundtrip_fresh_salt_witness :
    saltOk "ab".data ∧ saltOk "cd".data ∧ "ab".data ≠ "cd".data ∧
    (hashPassword "ab".data "hunter2" ≠ "hunter2" ∧
      verifyPassword "hunter2" (hashPassword "ab".data "hunter2") = true ∧
      hashPassword "ab".data "hunter2" ≠ hashPassword "cd".data "hunter2" ∧
      verifyPassword "hunter2" (hashPassword "cd".data "hunter2") = true) :=
  ⟨by decide, by decide, by decide,
    hashPassword_roundtrip_fresh_salt "hunter2" "ab".data "cd".data
      (by decide) (by decide) (by decide)⟩

/-- Claim C5: the hasher accepts and round-trips every password — the
quantification over all Lean strings covers the empty string, unicode,
embedded null characters and arbitrarily long inputs, with no truncation —
and for every pair of distinct passwords, including pairs differing only
beyond any fixed prefix, verification of one against the other's hash is
`false`. -/
theorem verifyPassword_rejects_wrong_password (p₁ p₂ : String) (s : List Char)
    (hs : saltOk s) (hne : p₁ ≠ p₂) :
    verifyPassword p₁ (hashPassword s p₁) = true ∧
    verifyPassword p₁ (hashPassword s p₂) = false := by
  constructor
  · rw [verify_hash s hs]; simp
  · rw [verify_hash s hs]
    exact decide_eq_false (fun h => hne h.symm)

theorem verifyPassword_rejects_wrong_password_witness :
    saltOk "xy".data ∧
    "prefixprefixprefixprefixprefixprefixprefixprefixprefixprefixprefixprefixA" ≠
      "prefixprefixprefixprefixprefixprefixprefixprefixprefixprefixprefixprefixB" ∧
    (verifyPassword "prefixprefixprefixprefixprefixprefixprefixprefixprefixprefixprefixprefixA"
        (hashPassword "xy".data "prefixprefixprefixprefixprefixprefixprefixprefixprefixprefixprefixprefixA") = true ∧
      verifyPassword "prefixprefixprefixprefixprefixprefixprefixprefixprefixprefixprefixprefixA"
        (hashPassword "xy".data "prefixprefixprefixprefixprefixprefixprefixprefixprefixprefixprefixprefixB") = false) :=
  ⟨by decide, by decide,
    verifyPassword_rejects_wrong_password
      "prefixprefixprefixprefixprefixprefixprefixprefixprefixprefixprefixprefixA"
      "prefixprefixprefixprefixprefixprefixprefixprefixprefixprefixprefixprefixB"
      "xy".data (by decide) (by decide)⟩

/-- Claim C6: every generated token is at least 32 characters over the hex
charset `[0-9a-f]`, and any sequence of calls whose platform uuids are
pairwise distinct (as `randomUUIDv7` guarantees, in particular for 100
successive calls) yields pairwise distinct tokens.  A stripped uuid is 32
ASCII hex characters, whence the two side conditions. -/
theorem generateSessionToken_spec (calls : List (List Char × Nat))
    (hlen : ∀ c ∈ calls, (stripDashes c.1).length = 32)
    (hascii : ∀ c ∈ calls, ∀ ch ∈ stripDashes c.1, ch.toNat < 256)
    (hdist : List.Pairwise (fun a b => stripDashes a.1 ≠ stripDashes b.1) calls) :
    (∀ c ∈ calls, 32 ≤ (generateSessionToken c.1 c.2).length ∧
      ∀ ch ∈ (generateSessionToken c.1 c.2).data, ch ∈ hexChars) ∧
    List.Pairwise (fun a b => a ≠ b)
      (calls.map (fun c => generateSessionToken c.1 c.2)) := by
  constructor
  · intro c hc
    constructor
    · have hl : (generateSessionToken c.1 c.2).length =
          (bufferToHex (stripDashes c.1 ++ (Nat.repr c.2).data)).length := rfl
      rw [hl, bufferToHex_length, List.length_append, hlen c hc]
      omega
    · intro ch hch
      exact bufferToHex_mem_hexChars _ ch hch
  · rw [List.pairwise_map]
    refine List.Pairwise.imp_of_mem ?_ hdist
    intro a b ha hb hne
    exact generateSessionToken_inj a.1 b.1 a.2 b.2 (hlen a ha) (hlen b hb)
      (hascii a ha) (hascii b hb) hne

theorem generateSessionToken_spec_witness :
    (∀ c ∈ [("0192e4a0-1111-7abc-8def-000000000001".data, 1791075600000),
        ("0192e4a0-1111-7abc-8def-000000000002".data, 1791075600000)],
      (stripDashes c.1).length = 32) ∧
    (∀ c ∈ [("0192e4a0-1111-7abc-8def-000000000001".data, 1791075600000),
        ("0192e4a0-1111-7abc-8def-000000000002".data, 1791075600000)],
      ∀ ch ∈ stripDashes c.1, ch.toNat < 256) ∧
    ((∀ c ∈ [("0192e4a0-1111-7abc-8def-000000000001".data, 1791075600000),
        ("0192e4a0-1111-7abc-8def-000000000002".data, 1791075600000)],
      32 ≤ (generateSessionToken c.1 c.2).length ∧
      ∀ ch ∈ (generateSessionToken c.1 c.2).data, ch ∈ hexChars) ∧
    List.Pairwise (fun a b => a ≠ b)
      ([("0192e4a0-1111-7abc-8def-000000000001".data, 1791075600000),
        ("0192e4a0-1111-7abc-8def-000000000002".data, 1791075600000)].map
        (fun c => generateSessionToken c.1 c.2))) :=
  ⟨by decide, by decide,
    generateSessionToken_spec
      [("0192e4a0-1111-7abc-8def-000000000001".data, 1791075600000),
        ("0192e4a0-1111-7abc-8def-000000000002".data, 1791075600000)]
      (by decide) (by decide) (by decide)⟩

/-- A concrete store used to instantiate the claim theorems: one registered
user whose stored hash was produced by `hashPassword`. -/
def sampleUser : UserRow :=
  ⟨1, "alice", "alice@example.com", hashPassword "somesalt".data "secret1",
    "2026-10-04 01:00:00"⟩

/-- A concrete store with `sampleUser` and no sessions. -/
def sampleDb : AuthDb := ⟨[sampleUser], []⟩

/-- Claim C1: both authentication failures — unknown email and stored-hash
mismatch — return `success:false` with the identical message `"Invalid email
or password"`, and on every failure path of `authenticateUser` the
`sessionToken` and `userId` keys are absent. -/
theorem authenticateUser_failure_uniform (db : AuthDb) (uuid : List Char)
    (nowMs : Nat) (email password : String) :
    (db.users.find? (fun u => u.email == email) = none →
      (authenticateUser db uuid nowMs email password).1 =
        ⟨false, "Invalid email or password", none, none⟩) ∧
    (∀ w, db.users.find? (fun u => u.email == email) = some w →
      verifyPassword password w.password_hash = false →
      (authenticateUser db uuid nowMs email password).1 =
        ⟨false, "Invalid email or password", none, none⟩) ∧
    ((authenticateUser db uuid nowMs email password).1.success = false →
      (authenticateUser db uuid nowMs email password).1.sessionToken = none ∧
      (authenticateUser db uuid nowMs email password).1.userId = none) := by
  unfold authenticateUser
  cases hf : db.users.find? (fun u => u.email == email) with
  | none => simp
  | some w =>
    by_cases hv : verifyPassword password w.password_hash
    · simp [hv]
    · simp [hv]

theorem authenticateUser_failure_uniform_witness :
    (authenticateUser sampleDb [] 0 "bob@example.com" "pw").1 =
      ⟨false, "Invalid email or password", none, none⟩ ∧
    (authenticateUser sampleDb [] 0 "alice@example.com" "wrongpw").1 =
      ⟨false, "Invalid email or password", none, none⟩ :=
  ⟨(authenticateUser_failure_uniform sampleDb [] 0 "bob@example.com" "pw").1
      (by decide),
    (authenticateUser_failure_uniform sampleDb [] 0 "alice@example.com" "wrongpw").2.1
      sampleUser (by decide) (by decide)⟩

/-- Claim C3: the registration pipeline short-circuits in order — empty
field, then password shorter than 6 (failing with a message containing the
word "password", and never firing for length 6 or more), then duplicate
email — and only past all three checks hashes the password, persists the
user, and returns `success:true` with the new user's id. -/
theorem registerUser_pipeline (db : AuthDb) (nextId : Int) (salt : List Char)
    (nowStr username email password : String) :
    (username = "" ∨ email = "" ∨ password = "" →
      (registerUser db nextId salt nowStr username email password).1 =
        ⟨false, "Username, email, and password are required", none⟩) ∧
    (username ≠ "" → email ≠ "" → password ≠ "" → password.length < 6 →
      (registerUser db nextId salt nowStr username email password).1 =
        ⟨false, "Password must be at least 6 characters long", none⟩ ∧
      "password".data <:+:
        (toLowerStr (registerUser db nextId salt nowStr username email password).1.message).data) ∧
    (username ≠ "" → email ≠ "" → password ≠ "" → 6 ≤ password.length →
      (registerUser db nextId salt nowStr username email password).1.message ≠
        "Password must be at least 6 characters long") ∧
    (username ≠ "" → email ≠ "" → password ≠ "" → 6 ≤ password.length →
      (∃ u ∈ db.users, u.email = email) →
      (registerUser db nextId salt nowStr username email password).1 =
        ⟨false, "Email already registered", none⟩) ∧
    (username ≠ "" → email ≠ "" → password ≠ "" → 6 ≤ password.length →
      (∀ u ∈ db.users, u.email ≠ email) →
      (registerUser db nextId salt nowStr username email password).1 =
        ⟨true, "User registered successfully", some nextId⟩ ∧
      (registerUser db nextId salt nowStr username email password).2 =
        ⟨db.users ++ [⟨nextId, username, email, hashPassword salt password, nowStr⟩],
          db.sessions⟩) := by
  refine ⟨?_, ?_, ?_, ?_, ?_⟩
  · intro h
    have hc : (username == "" || email == "" || password == "") = true := by
      rcases h with h | h | h <;> simp [h]
    unfold registerUser
    rw [if_pos hc]
  · intro h1 h2 h3 h4
    have hc : (username == "" || email == "" || password == "") = false := by
      simp [h1, h2, h3]
    unfold registerUser
    rw [if_neg (by simp [hc]), if_pos h4]
    constructor
    · rfl
    · show "password".data <:+:
        (toLowerStr "Password must be at least 6 characters long").data
      decide
  · intro h1 h2 h3 h4
    have hc : (username == "" || email == "" || password == "") = false := by
      simp [h1, h2, h3]
    unfold registerUser
    rw [if_neg (by simp [hc]), if_neg (by omega)]
    cases db.users.find? (fun u => u.email == email) with
    | none => simp
    | some _ => simp
  · intro h1 h2 h3 h4 hex
    have hc : (username == "" || email == "" || password == "") = false := by
      simp [h1, h2, h3]
    unfold registerUser
    rw [if_neg (by simp [hc]), if_neg (by omega)]
    obtain ⟨u, hu, hue⟩ := hex
    cases hf : db.users.find? (fun w => w.email == email) with
    | some _ => rfl
    | none =>
      rw [List.find?_eq_none] at hf
      exact absurd (by simp [hue]) (hf u hu)
  · intro h1 h2 h3 h4 hnone
    have hc : (username == "" || email == "" || password == "") = false := by
      simp [h1, h2, h3]
    have hf : db.users.find? (fun w => w.email == email) = none :=
      List.find?_eq_none.mpr (fun u hu => by simp [hnone u hu])
    unfold registerUser
    rw [if_neg (by simp [hc]), if_neg (by omega), hf]
    refine ⟨?_, rfl⟩
    have hfind : (db.users ++
        [(⟨nextId, username, email, hashPassword salt password, nowStr⟩ : UserRow)]).find?
          (fun w => w.email == email) =
        some ⟨nextId, username, email, hashPassword salt password, nowStr⟩ := by
      rw [List.find?_append, hf]
      simp [List.find?]
    simp [hfind]

theorem registerUser_pipeline_witness :
    (registerUser sampleDb 2 "uv".data "now" "" "e@x.com" "longpassword").1 =
      ⟨false, "Username, email, and password are required", none⟩ ∧
    ((registerUser sampleDb 2 "uv".data "now" "bob" "e@x.com" "12345").1 =
      ⟨false, "Password must be at least 6 characters long", none⟩ ∧
      "password".data <:+:
        (toLowerStr (registerUser sampleDb 2 "uv".data "now" "bob" "e@x.com" "12345").1.message).data) ∧
    (registerUser sampleDb 2 "uv".data "now" "bob" "e@x.com" "123456").1.message ≠
      "Password must be at least 6 characters long" ∧
    (registerUser sampleDb 2 "uv".data "now" "bob" "alice@example.com" "123456").1 =
      ⟨false, "Email already registered", none⟩ ∧
    (registerUser sampleDb 2 "uv".data "now" "bob" "e@x.com" "123456").1 =
      ⟨true, "User registered successfully", some 2⟩ :=
  ⟨(registerUser_pipeline sampleDb 2 "uv".data "now" "" "e@x.com" "longpassword").1
      (Or.inl rfl),
    (registerUser_pipeline sampleDb 2 "uv".data "now" "bob" "e@x.com" "12345").2.1
      (by decide) (by decide) (by decide) (by decide),
    (registerUser_pipeline sampleDb 2 "uv".data "now" "bob" "e@x.com" "123456").2.2.1
      (by decide) (by decide) (by decide) (by decide),
    (registerUser_pipeline sampleDb 2 "uv".data "now" "bob" "alice@example.com" "123456").2.2.2.1
      (by decide) (by decide) (by decide) (by decide)
      ⟨sampleUser, by decide, by decide⟩,
    ((registerUser_pipeline sampleDb 2 "uv".data "now" "bob" "e@x.com" "123456").2.2.2.2
      (by decide) (by decide) (by decide) (by decide) (by decide)).1⟩

/-- Claim C7: `getUserById` returns, for an id present in the store, exactly
the `id`, `username`, `email` and `created_at` fields of that row — the
`UserInfo` shape carries no password-hash field for any input — and returns
`none` for a zero, negative (ids are positive in any store built by
registration) or non-existent id. -/
theorem getUserById_spec (db : AuthDb) (i : Int) :
    (∀ info, getUserById db i = some info →
      ∃ u, u ∈ db.users ∧ u.id = i ∧
        info = ⟨u.id, u.username, u.email, u.created_at⟩) ∧
    ((∀ u ∈ db.users, 1 ≤ u.id) → i ≤ 0 → getUserById db i = none) ∧
    ((∀ u ∈ db.users, u.id ≠ i) → getUserById db i = none) := by
  refine ⟨?_, ?_, ?_⟩
  · intro info hinfo
    unfold getUserById at hinfo
    cases hf : db.users.find? (fun u => u.id == i) with
    | none => rw [hf] at hinfo; simp at hinfo
    | some u =>
      rw [hf] at hinfo
      simp only [Option.map_some', Option.some.injEq] at hinfo
      refine ⟨u, List.mem_of_find?_eq_some hf, ?_, hinfo.symm⟩
      have := List.find?_some hf
      simpa using this
  · intro hpos hneg
    unfold getUserById
    rw [List.find?_eq_none.mpr]
    · rfl
    · intro u hu
      have h1 := hpos u hu
      simp only [beq_iff_eq]
      omega
  · intro hne
    unfold getUserById
    rw [List.find?_eq_none.mpr]
    · rfl
    · intro u hu
      simpa using hne u hu

theorem getUserById_spec_witness :
    (∃ u, u ∈ sampleDb.users ∧ u.id = 1 ∧
      (⟨1, "alice", "alice@example.com", "2026-10-04 01:00:00"⟩ : UserInfo) =
        ⟨u.id, u.username, u.email, u.created_at⟩) ∧
    getUserById sampleDb 0 = none ∧
    getUserById sampleDb (-5) = none ∧
    getUserById sampleDb 99 = none :=
  ⟨(getUserById_spec sampleDb 1).1 ⟨1, "alice", "alice@example.com", "2026-10-04 01:00:00"⟩
      (by decide),
    (getUserById_spec sampleDb 0).2.1 (by decide) (by decide),
    (getUserById_spec sampleDb (-5)).2.1 (by decide) (by decide),
    (getUserById_spec sampleDb 99).2.2 (by decide)⟩

/-- Claim C9: `logoutUser` always returns `success:true`, its only state
effect is removing the session rows carrying the given token — the user
table is untouched — and repeating the call with the same token (known,
unknown or empty) gives the identical result and state. -/
theorem logoutUser_spec (db : AuthDb) (t : String) :
    (logoutUser db t).1 = ⟨true⟩ ∧
    ((logoutUser db t).2).users = db.users ∧
    ((logoutUser db t).2).sessions =
      db.sessions.filter (fun s => !(s.session_token == t)) ∧
    logoutUser ((logoutUser db t).2) t = logoutUser db t := by
  refine ⟨rfl, rfl, rfl, ?_⟩
  unfold logoutUser
  simp [List.filter_filter]

/-- Claim C2 (failing input): a session created by `authenticateUser` at
2026-10-04T01:00:00Z carries `expires_at = "2026-10-11T01:00:00.000Z"`;
verifying its token at 2026-10-11T02:00:00Z — one hour past expiry, but the
same UTC date — still returns `{valid:true, userId:1}`, because sqlite
compares the stored ISO-format TEXT (with a `'T'` date separator) against
`datetime('now')` (with a space separator) byte-wise, and `'T' > ' '`.  The
final conjunct states that the session is in fact expired: its expiry
instant precedes the verification instant. -/
theorem verifySession_accepts_expired_same_day :
    (authenticateUser sampleDb "0192e4a0-1111-7abc-8def-000000000001".data
        1791075600000 "alice@example.com" "secret1").1.success = true ∧
    verifySession
        (authenticateUser sampleDb "0192e4a0-1111-7abc-8def-000000000001".data
          1791075600000 "alice@example.com" "secret1").2
        1791684000000
        (generateSessionToken "0192e4a0-1111-7abc-8def-000000000001".data
          1791075600000) =
      ⟨true, some 1⟩ ∧
    1791075600000 + 7 * 24 * 60 * 60 * 1000 < 1791684000000 := by
  refine ⟨by decide, by decide, by decide⟩

/-! ### Header lemmas for the cookie claims -/

theorem find?_filter_not {α} (p : α → Bool) (l : List α) :
    (l.filter (fun x => !(p x))).find? p = none := by
  rw [List.find?_eq_none]
  intro a ha
  have hmem := List.of_mem_filter ha
  simp at hmem
  simp [hmem]

theorem headersGet_headersSet_same (hs : List (String × String)) (n v : String) :
    headersGet (headersSet hs n v) n = some v := by
  unfold headersGet headersSet
  rw [List.find?_append, find?_filter_not]
  simp [List.find?, headerNameEq]

theorem find?_headers_aux (as : List (String × String)) (n v m : String)
    (hm : toLowerStr m ≠ toLowerStr n) :
    List.find? (fun p => headerNameEq p.1 m)
      (List.filter (fun p => !headerNameEq p.1 n) as ++ [(n, v)]) =
    List.find? (fun p => headerNameEq p.1 m) as := by
  induction as with
  | nil =>
    have hnm : headerNameEq n m = false := by
      unfold headerNameEq
      exact beq_eq_false_iff_ne.mpr (fun h => hm h.symm)
    simp [List.find?, hnm]
  | cons a as ih =>
    by_cases han : headerNameEq a.1 n = true
    · have heq : toLowerStr a.1 = toLowerStr n := by
        have h' := han
        unfold headerNameEq at h'
        exact eq_of_beq h'
      have ham : headerNameEq a.1 m = false := by
        unfold headerNameEq
        exact beq_eq_false_iff_ne.mpr (fun hx => hm (hx ▸ heq))
      rw [List.filter_cons_of_neg (by simp [han]), List.find?_cons_of_neg _ (by simp [ham])]
      exact ih
    · have han' : headerNameEq a.1 n = false := by simpa using han
      rw [List.filter_cons_of_pos (by simp [han'])]
      by_cases ham : headerNameEq a.1 m = true
      · rw [List.cons_append, List.find?_cons_of_pos _ (by simp [ham]),
          List.find?_cons_of_pos _ (by simp [ham])]
      · have ham' : headerNameEq a.1 m = false := by simpa using ham
        rw [List.cons_append, List.find?_cons_of_neg _ (by simp [ham']),
          List.find?_cons_of_neg _ (by simp [ham'])]
        exact ih

theorem headersGet_headersSet_other (hs : List (String × String)) (n v m : String)
    (hm : toLowerStr m ≠ toLowerStr n) :
    headersGet (headersSet hs n v) m = headersGet hs m := by
  unfold headersGet headersSet
  rw [find?_headers_aux hs n v m hm]

/-- Claim C8: `setSessionCookie` returns a response whose `Set-Cookie`
header is the serialization of the cookie named `sessionToken` with value
`t` and attributes `Path=/`, `HttpOnly`, `Secure`, `SameSite=Strict
(strict)` and `Max-Age = d * 86400`; `clearSessionCookie` same with empty
value and `Max-Age=0`; both preserve status, body and every other header
(the model is pure, so the input response itself is untouched). -/
theorem cookie_attach_clear_spec (r : Response) (t : String) (d : Nat) :
    headersGet (setSessionCookie r t d).headers "Set-Cookie" =
      some (cookieToString ⟨"sessionToken", t, "/", true, true, "strict", d * 86400⟩) ∧
    (setSessionCookie r t d).status = r.status ∧
    (setSessionCookie r t d).body = r.body ∧
    (∀ m, toLowerStr m ≠ toLowerStr "Set-Cookie" →
      headersGet (setSessionCookie r t d).headers m = headersGet r.headers m) ∧
    headersGet (clearSessionCookie r).headers "Set-Cookie" =
      some (cookieToString ⟨"sessionToken", "", "/", true, true, "strict", 0⟩) ∧
    (clearSessionCookie r).status = r.status ∧
    (clearSessionCookie r).body = r.body ∧
    (∀ m, toLowerStr m ≠ toLowerStr "Set-Cookie" →
      headersGet (clearSessionCookie r).headers m = headersGet r.headers m) ∧
    7 * 86400 = 604800 := by
  have harith : d * 24 * 60 * 60 = d * 86400 := by ring
  refine ⟨?_, rfl, rfl, ?_, ?_, rfl, rfl, ?_, rfl⟩
  · show headersGet (headersSet r.headers "Set-Cookie"
        (cookieToString ⟨"sessionToken", t, "/", true, true, "strict",
          d * 24 * 60 * 60⟩)) "Set-Cookie" = _
    rw [headersGet_headersSet_same, harith]
  · intro m hm
    exact headersGet_headersSet_other r.headers "Set-Cookie" _ m hm
  · show headersGet (headersSet r.headers "Set-Cookie"
        (cookieToString ⟨"sessionToken", "", "/", true, true, "strict", 0⟩))
        "Set-Cookie" = _
    rw [headersGet_headersSet_same]
  · intro m hm
    exact headersGet_headersSet_other r.headers "Set-Cookie" _ m hm

theorem cookie_attach_clear_spec_witness :
    headersGet (setSessionCookie ⟨200, [("Content-Type", "text/html")], "OK"⟩
        "tok123" 7).headers "Set-Cookie" =
      some (cookieToString ⟨"sessionToken", "tok123", "/", true, true, "strict",
        7 * 86400⟩) ∧
    headersGet (setSessionCookie ⟨200, [("Content-Type", "text/html")], "OK"⟩
        "tok123" 7).headers "Content-Type" = some "text/html" ∧
    headersGet (clearSessionCookie ⟨200, [("Content-Type", "text/html")], "OK"⟩).headers
        "Set-Cookie" =
      some (cookieToString ⟨"sessionToken", "", "/", true, true, "strict", 0⟩) ∧
    7 * 86400 = 604800 :=
  ⟨(cookie_attach_clear_spec ⟨200, [("Content-Type", "text/html")], "OK"⟩ "tok123" 7).1,
    (cookie_attach_clear_spec ⟨200, [("Content-Type", "text/html")], "OK"⟩ "tok123" 7).2.2.2.1
      "Content-Type" (by decide),
    (cookie_attach_clear_spec ⟨200, [("Content-Type", "text/html")], "OK"⟩ "tok123" 7).2.2.2.2.1,
    rfl⟩

/-- Claim C10: a request whose Cookie header carries `sessionToken` with an
empty value extracts to `none` — never the empty string — and the
request-wrapping helper resolves it as anonymous for every store and clock
(so no session lookup can influence the outcome); moreover no caller of the
helper ever observes an empty-string token from any request. -/
theorem emptySessionCookie_anonymous (req : Request)
    (h : ∃ hdr, headersGet req.headers "cookie" = some hdr ∧
      cookieMapGet hdr "sessionToken" = some "") :
    getSessionFromCookies req = none ∧
    (∀ db nowMs, resolveAuth db nowMs req = (none, none)) ∧
    (∀ r v, getSessionFromCookies r = some v → v ≠ "") := by
  obtain ⟨hdr, h1, h2⟩ := h
  have hget : getSessionFromCookies req = none := by
    simp [getSessionFromCookies, h1, h2]
  refine ⟨hget, ?_, ?_⟩
  · intro db nowMs
    simp [resolveAuth, hget]
  · intro r v hv
    cases hh : headersGet r.headers "cookie" with
    | none => simp [getSessionFromCookies, hh] at hv
    | some hdr' =>
      cases hc : cookieMapGet hdr' "sessionToken" with
      | none => simp [getSessionFromCookies, hh, hc] at hv
      | some w =>
        by_cases hw : (w == "") = true
        · simp [getSessionFromCookies, hh, hc, hw] at hv
        · simp only [getSessionFromCookies, hh, hc, if_neg hw] at hv
          have hvw : v = w := by simpa using hv.symm
          subst hvw
          simpa using hw

theorem emptySessionCookie_anonymous_witness :
    getSessionFromCookies ⟨[("Cookie", "sessionToken=; other=value")]⟩ = none ∧
    resolveAuth sampleDb 1791075600000
      ⟨[("Cookie", "sessionToken=; other=value")]⟩ = (none, none) :=
  ⟨(emptySessionCookie_anonymous ⟨[("Cookie", "sessionToken=; other=value")]⟩
      ⟨"sessionToken=; other=value", by decide, by decide⟩).1,
    (emptySessionCookie_anonymous ⟨[("Cookie", "sessionToken=; other=value")]⟩
      ⟨"sessionToken=; other=value", by decide, by decide⟩).2.1 sampleDb 1791075600000⟩
